import Mathlib

/-!
Shallow embedding of the realtime chat app's message-handling core.

The in-memory gRPC servicer (`chat_server/server_simple.py`) keeps a plain
list `messages_store` of message dicts, a dictionary `_CLIENT_QUEUES` mapping
each streaming client to a pending-delivery deque, and four handlers
(SendMessage, StreamMessages, GetMessageHistory, DeleteMessage).  The
Firestore-backed servicer (`chat_server/server.py`) guards every handler with
`if not db` and otherwise delegates to the external database.  The Flask
transport (`flask_app/app.py`) validates empty content before calling the
gRPC Send.  Each handler below is a pure function on the explicit state;
time (`time.time()`) is passed as an argument.
-/

/-- A chat message as stored by the servers: exactly the three fields the
Python code puts in `message_data` / `chat_pb2.ChatMessage` (sender, content,
unix-seconds timestamp).  There is no sequence or id field in the source. -/
structure ChatMessage where
  sender : String
  content : String
  timestamp : Int
deriving DecidableEq, Repr

/-- `chat_pb2.SendMessageRequest`: wraps the message to send. -/
structure SendMessageRequest where
  message : ChatMessage
deriving DecidableEq, Repr

/-- `chat_pb2.SendMessageResponse` as constructed by the server:
`chat_pb2.SendMessageResponse()` with no fields set. -/
structure SendMessageResponse where
deriving DecidableEq, Repr

/-- `chat_pb2.DeleteMessageResponse(success=..., message=...)`. -/
structure DeleteMessageResponse where
  success : Bool
  message : String
deriving DecidableEq, Repr

/-- The mutable module-level state of `server_simple.py`: `messages_store`
and `_CLIENT_QUEUES` (client peer id paired with its pending deque, oldest
first). -/
structure ServerState where
  messages_store : List ChatMessage
  client_queues : List (String × List ChatMessage)
deriving DecidableEq, Repr

/-- `ChatServiceServicer.SendMessage` of `server_simple.py`: under the lock it
builds `message_data` from the request's sender/content and the *current
time* (the request's own timestamp is ignored), appends it to
`messages_store`, appends a copy to every client queue, and returns an empty
`SendMessageResponse()`.  No validation, no capacity bound, no eviction. -/
def sendMessage (request : SendMessageRequest) (now : Int) (st : ServerState) :
    ServerState × SendMessageResponse :=
  let message_data : ChatMessage :=
    ⟨request.message.sender, request.message.content, now⟩
  ({ messages_store := st.messages_store ++ [message_data],
     client_queues := st.client_queues.map fun p => (p.1, p.2 ++ [message_data]) },
   ⟨⟩)

/-- A sequence of SendMessage calls (each paired with the server clock value
at that call), folded over the server state. -/
def sends : List (SendMessageRequest × Int) → ServerState → ServerState
  | [], st => st
  | r :: rs, st => sends rs (sendMessage r.1 r.2 st).1

/-- The messages such a sequence of sends stores, in call order. -/
def sentMessages : List (SendMessageRequest × Int) → List ChatMessage
  | [] => []
  | r :: rs => ⟨r.1.message.sender, r.1.message.content, r.2⟩ :: sentMessages rs

/-- `ChatServiceServicer.StreamMessages` registration (lines 69–82 of
`server_simple.py`): a fresh queue is registered for the client and the
catch-up batch — `messages_store[-10:] if len(messages_store) > 10 else
messages_store` — is appended to it. -/
def streamRegister (client_id : String) (st : ServerState) : ServerState :=
  let recent_messages :=
    if st.messages_store.length > 10 then
      st.messages_store.drop (st.messages_store.length - 10)
    else st.messages_store
  { st with client_queues := st.client_queues ++ [(client_id, recent_messages)] }

/-- The consumer loop of `StreamMessages`: while the queue is non-empty it
pops from the left and yields, so a queue holding `q` is delivered as exactly
`q`, oldest first. -/
def drainQueue : List ChatMessage → List ChatMessage
  | [] => []
  | m :: rest => m :: drainQueue rest

/-- `ChatServiceServicer.GetMessageHistory` of `server_simple.py`:
`limit = min(request.limit, len(messages_store))`, then
`messages_store[-limit:] if limit > 0 else []` (the handler copies each dict
into a `ChatMessage` with identical fields).  `request.limit` is a protobuf
int and may be non-positive. -/
def getMessageHistory (limit : Int) (store : List ChatMessage) : List ChatMessage :=
  let l : Int := min limit (store.length : Int)
  if 0 < l then store.drop (store.length - l.toNat) else []

/-- `ChatServiceServicer.DeleteMessage` of `server_simple.py`: rebuilds
`messages_store` keeping only the messages whose content differs from
`request.message_id`, counts how many were dropped, and answers success
accordingly.  Note it removes *every* content match, not just the first. -/
def deleteMessage (message_id : String) (store : List ChatMessage) :
    List ChatMessage × DeleteMessageResponse :=
  let newStore := store.filter fun m => m.content != message_id
  let deleted_count := store.length - newStore.length
  if 0 < deleted_count then
    (newStore,
     ⟨true, "Deleted " ++ toString deleted_count ++
       " message(s) with content \x27" ++ message_id ++ "\x27"⟩)
  else
    (newStore,
     ⟨false, "No messages found with content \x27" ++ message_id ++ "\x27"⟩)

/-- Result of the Flask `/send_message` route: the JSON status/message and
the HTTP status code. -/
structure FlaskResult where
  status : String
  message : String
  httpCode : Nat
deriving DecidableEq, Repr

/-- `send_message` of `flask_app/app.py`: if the posted content is empty it
returns a 400 error *without* calling the gRPC server (state untouched);
otherwise it builds a `ChatMessage`/`SendMessageRequest` and calls the gRPC
`SendMessage`. -/
def flask_send (sender content : String) (now : Int) (st : ServerState) :
    ServerState × FlaskResult :=
  if content = "" then
    (st, ⟨"error", "Message content cannot be empty", 400⟩)
  else
    let r := sendMessage ⟨⟨sender, content, now⟩⟩ now st
    (r.1, ⟨"success", "Message sent!", 200⟩)

/-- A document of the Firestore chat collection as written by
`server.py` (`sender`, `content`, server-assigned `timestamp`). -/
structure FsDoc where
  sender : String
  content : String
  timestamp : Int
deriving DecidableEq, Repr

/-- The chat collection held by the Firestore backend. -/
abbrev Database := List FsDoc

/-- gRPC status codes the handlers of `server.py` set via
`context.set_code`. -/
inductive StatusCode where
  | OK
  | UNAVAILABLE
  | INTERNAL
deriving DecidableEq, Repr

/-- Insert a document into a timestamp-ascending list, keeping it sorted
(model of the backend's `order_by('timestamp')`). -/
def insertByTs (x : FsDoc) : List FsDoc → List FsDoc
  | [] => [x]
  | y :: ys => if x.timestamp ≤ y.timestamp then x :: y :: ys else y :: insertByTs x ys

/-- Sort the collection by timestamp ascending (model of the backend's
`order_by('timestamp')` query ordering). -/
def sortByTs : List FsDoc → List FsDoc
  | [] => []
  | x :: xs => insertByTs x (sortByTs xs)

/-- `ChatServiceServicer.SendMessage` of `server.py`: if `db` is `None` it
sets `UNAVAILABLE` ("Database not ready.") and returns without touching the
collection; otherwise it adds one document with the request's sender/content
and the server-assigned timestamp (`firestore.SERVER_TIMESTAMP`, modelled by
`now`). -/
def fsSendMessage (db : Option Database) (request : SendMessageRequest)
    (now : Int) : Option Database × SendMessageResponse × StatusCode :=
  match db with
  | none => (none, ⟨⟩, StatusCode.UNAVAILABLE)
  | some d =>
      (some (d ++ [⟨request.message.sender, request.message.content, now⟩]),
       ⟨⟩, StatusCode.OK)

/-- `ChatServiceServicer.GetMessageHistory` of `server.py`: if `db` is `None`
it sets `UNAVAILABLE` and returns an empty response; otherwise it queries the
latest `limit` documents ordered by timestamp descending and reverses them
to oldest-first. -/
def fsGetMessageHistory (db : Option Database) (limit : Int) :
    List FsDoc × StatusCode :=
  match db with
  | none => ([], StatusCode.UNAVAILABLE)
  | some d => ((((sortByTs d).reverse).take limit.toNat).reverse, StatusCode.OK)

/-- The start of `ChatServiceServicer.StreamMessages` of `server.py`: if `db`
is `None` it sets `UNAVAILABLE` and returns at once, so the stream yields no
messages (`none` here); otherwise the session starts with the initial
snapshot `order_by('timestamp').limit_to_last(100)`. -/
def fsStreamStart (db : Option Database) : Option (List FsDoc) :=
  match db with
  | none => none
  | some d =>
      let sorted := sortByTs d
      some (sorted.drop (sorted.length - 100))

/-- Remove the first document whose content matches, if any: the
`where('content','==',id).limit(1)` query of `server.py`'s delete followed by
`doc.reference.delete()` and `break`. -/
def fsRemoveFirst (message_id : String) : List FsDoc → List FsDoc
  | [] => []
  | doc :: rest =>
      if doc.content == message_id then rest else doc :: fsRemoveFirst message_id rest

/-- `ChatServiceServicer.DeleteMessage` of `server.py`: if `db` is `None` it
sets `UNAVAILABLE` and returns `success=False, "Database not ready."`;
otherwise it deletes the first document whose content equals the given id
(at most one per call) and reports found/not-found. -/
def fsDeleteMessage (db : Option Database) (message_id : String) :
    Option Database × DeleteMessageResponse × StatusCode :=
  match db with
  | none => (none, ⟨false, "Database not ready."⟩, StatusCode.UNAVAILABLE)
  | some d =>
      if d.any fun doc => doc.content == message_id then
        (some (fsRemoveFirst message_id d),
         ⟨true, "Message \x27" ++ message_id ++
           "\x27 deleted (simulated by content match)."⟩,
         StatusCode.OK)
      else
        (some d,
         ⟨false, "Message \x27" ++ message_id ++
           "\x27 not found for deletion by content."⟩,
         StatusCode.OK)

section Helpers

theorem sends_messages_store (reqs : List (SendMessageRequest × Int)) :
    ∀ st : ServerState,
      (sends reqs st).messages_store = st.messages_store ++ sentMessages reqs := by
  induction reqs with
  | nil => intro st; simp [sends, sentMessages]
  | cons r rs ih =>
      intro st
      simp [sends, sentMessages, sendMessage, ih]

theorem sends_client_queues (reqs : List (SendMessageRequest × Int)) :
    ∀ st : ServerState,
      (sends reqs st).client_queues =
        st.client_queues.map fun p => (p.1, p.2 ++ sentMessages reqs) := by
  induction reqs with
  | nil => intro st; simp [sends, sentMessages]
  | cons r rs ih =>
      intro st
      simp only [sends, sentMessages, sendMessage, ih]
      simp [List.map_map, Function.comp]

theorem drainQueue_eq (q : List ChatMessage) : drainQueue q = q := by
  induction q with
  | nil => rfl
  | cons m rest ih => simp [drainQueue, ih]

theorem filter_length_split {α : Type} (p : α → Bool) (s : List α) :
    s.length = (s.filter p).length + (s.filter fun a => !(p a)).length := by
  induction s with
  | nil => rfl
  | cons a s ih =>
      by_cases h : p a <;> simp [List.filter, h, ih] <;> omega

theorem sentMessages_length (reqs : List (SendMessageRequest × Int)) :
    (sentMessages reqs).length = reqs.length := by
  induction reqs with
  | nil => rfl
  | cons r rs ih => simp [sentMessages, ih]

theorem deleteMessage_fst (message_id : String) (s : List ChatMessage) :
    (deleteMessage message_id s).1 = s.filter fun m => m.content != message_id := by
  simp only [deleteMessage]
  split <;> rfl

theorem deleteMessage_no_match (message_id : String) (s : List ChatMessage)
    (h : ∀ m ∈ s, m.content ≠ message_id) :
    deleteMessage message_id s =
      (s, ⟨false, "No messages found with content \x27" ++ message_id ++ "\x27"⟩) := by
  have hf : (s.filter fun m => m.content != message_id) = s :=
    List.filter_eq_self.mpr fun m hm => bne_iff_ne.mpr (h m hm)
  simp only [deleteMessage, hf]
  simp

theorem fsRemoveFirst_length (message_id : String) (d : List FsDoc) :
    d.length ≤ (fsRemoveFirst message_id d).length + 1 := by
  induction d with
  | nil => simp [fsRemoveFirst]
  | cons doc rest ih =>
      simp only [fsRemoveFirst]
      split
      · simp
      · simp only [List.length_cons]
        omega

theorem fsRemoveFirst_sublist (message_id : String) (d : List FsDoc) :
    (fsRemoveFirst message_id d).Sublist d := by
  induction d with
  | nil => simp [fsRemoveFirst]
  | cons doc rest ih =>
      simp only [fsRemoveFirst]
      split
      · exact List.sublist_cons_self _ _
      · exact ih.cons₂ _

theorem fsRemoveFirst_mem (message_id : String) (d : List FsDoc) :
    ∀ doc ∈ d, doc.content ≠ message_id → doc ∈ fsRemoveFirst message_id d := by
  induction d with
  | nil => intro doc h; cases h
  | cons x rest ih =>
      intro doc hmem hne
      simp only [fsRemoveFirst]
      split
      · next hx =>
          rcases List.mem_cons.mp hmem with rfl | hr
          · exact absurd (eq_of_beq hx) hne
          · exact hr
      · next hx =>
          rcases List.mem_cons.mp hmem with rfl | hr
          · exact List.mem_cons_self _ _
          · exact List.mem_cons_of_mem _ (ih doc hr hne)

end Helpers

/-- C1: the claimed capacity invariant fails on the code.  `SendMessage` of
`server_simple.py` has no capacity bound and never evicts: at the claim's own
concrete scenario — appending `("A","hi",1)` then `("B","yo",2)` — the store
holds both messages, not only `("B","yo",2)`; and after 101 appends the store
holds 101 messages, exceeding the claimed default capacity 100. -/
theorem C1_counterexample :
    (sends [(⟨⟨"A", "hi", 1⟩⟩, 1), (⟨⟨"B", "yo", 2⟩⟩, 2)]
        ⟨[], []⟩).messages_store = [⟨"A", "hi", 1⟩, ⟨"B", "yo", 2⟩] ∧
    (sends [(⟨⟨"A", "hi", 1⟩⟩, 1), (⟨⟨"B", "yo", 2⟩⟩, 2)]
        ⟨[], []⟩).messages_store ≠ [⟨"B", "yo", 2⟩] ∧
    (sends (List.replicate 101 (⟨⟨"A", "hi", 1⟩⟩, (1 : Int)))
        ⟨[], []⟩).messages_store.length = 101 := by
  refine ⟨rfl, by decide, ?_⟩
  rw [sends_messages_store]
  simp [sentMessages_length]

/-- C1 (amended): the in-memory message store is unbounded — `SendMessage`
appends and never evicts, so after any sequence of sends the store holds
every previously stored message followed by all the new ones in send order,
and its length grows by exactly the number of sends. -/
theorem C1_store_unbounded (reqs : List (SendMessageRequest × Int))
    (st : ServerState) :
    (sends reqs st).messages_store = st.messages_store ++ sentMessages reqs ∧
    (sends reqs st).messages_store.length =
      st.messages_store.length + reqs.length := by
  refine ⟨sends_messages_store reqs st, ?_⟩
  rw [sends_messages_store]
  simp [sentMessages_length]

/-- C2: the claim that at most one entry is removed per Delete call fails on
`server_simple.py`: deleting content `"x"` from a store holding two messages
with content `"x"` removes both of them (two entries in one call). -/
theorem C2_counterexample :
    (deleteMessage "x" [⟨"A", "x", 1⟩, ⟨"B", "x", 2⟩]).1 = [] ∧
    ([⟨"A", "x", 1⟩, ⟨"B", "x", 2⟩] : List ChatMessage).length -
      (deleteMessage "x" [⟨"A", "x", 1⟩, ⟨"B", "x", 2⟩]).1.length = 2 := by
  exact ⟨rfl, rfl⟩

/-- C2 (amended): the in-memory `DeleteMessage` removes *every* message whose
content equals the selector — the number of removed entries equals the number
of matches and no matching message survives — while the Firestore variant
(`server.py`) removes at most one document per call. -/
theorem C2_delete_all_matches (message_id : String) (s : List ChatMessage) :
    s.length = (deleteMessage message_id s).1.length +
      (s.filter fun m => m.content == message_id).length ∧
    (∀ m ∈ (deleteMessage message_id s).1, m.content ≠ message_id) ∧
    ∀ d : Database, d.length ≤ (fsRemoveFirst message_id d).length + 1 := by
  refine ⟨?_, ?_, fun d => fsRemoveFirst_length message_id d⟩
  · have h := filter_length_split (fun m => m.content != message_id) s
    simp only [bne, Bool.not_not] at h
    rw [deleteMessage_fst]
    exact h
  · rw [deleteMessage_fst]
    intro m hm
    exact bne_iff_ne.mp (List.mem_filter.mp hm).2

/-- C2 witness: instantiates the amended theorem on a concrete two-message
store, discharging the membership hypothesis of its second conjunct at the
surviving message. -/
theorem C2_witness :
    ([⟨"A", "x", 1⟩, ⟨"B", "y", 2⟩] : List ChatMessage).length =
      (deleteMessage "x" [⟨"A", "x", 1⟩, ⟨"B", "y", 2⟩]).1.length +
      (([⟨"A", "x", 1⟩, ⟨"B", "y", 2⟩] : List ChatMessage).filter
        fun m => m.content == "x").length ∧
    (⟨"B", "y", 2⟩ : ChatMessage).content ≠ "x" :=
  ⟨(C2_delete_all_matches "x" [⟨"A", "x", 1⟩, ⟨"B", "y", 2⟩]).1,
   (C2_delete_all_matches "x" [⟨"A", "x", 1⟩, ⟨"B", "y", 2⟩]).2.1
     ⟨"B", "y", 2⟩ (by decide)⟩

/-- C3: `GetMessageHistory` returns up to `limit` most recent messages in
oldest-first order (a suffix of the append-ordered store): a non-positive
limit yields the empty list, a limit at least the history size yields the
entire history, and for non-negative limits the result length is
`min limit (history size)`. -/
theorem C3_history (limit : Int) (store : List ChatMessage) :
    (limit ≤ 0 → getMessageHistory limit store = []) ∧
    (0 ≤ limit →
      (getMessageHistory limit store).length = min limit.toNat store.length) ∧
    ((store.length : Int) ≤ limit → getMessageHistory limit store = store) ∧
    getMessageHistory limit store <:+ store := by
  refine ⟨?_, ?_, ?_, ?_⟩
  · intro h
    have hm : min limit (store.length : Int) ≤ limit := min_le_left _ _
    simp only [getMessageHistory]
    rw [if_neg (by omega)]
  · intro h
    have hm1 : min limit (store.length : Int) ≤ limit := min_le_left _ _
    have hm2 : min limit (store.length : Int) ≤ (store.length : Int) :=
      min_le_right _ _
    have hm3 : limit ≤ min limit (store.length : Int) ∨
        (store.length : Int) ≤ min limit (store.length : Int) := by
      rcases le_total limit (store.length : Int) with hc | hc
      · exact Or.inl (le_min le_rfl hc)
      · exact Or.inr (le_min hc le_rfl)
    simp only [getMessageHistory]
    split
    · rw [List.length_drop]
      omega
    · simp only [List.length_nil]
      omega
  · intro h
    have hm : min limit (store.length : Int) = (store.length : Int) :=
      min_eq_right h
    simp only [getMessageHistory, hm]
    split
    · next h0 =>
        rw [Int.toNat_natCast]
        simp
    · next h0 =>
        have hz : store.length = 0 := by omega
        exact (List.length_eq_zero.mp hz).symm
  · simp only [getMessageHistory]
    split
    · exact List.drop_suffix _ _
    · exact List.nil_suffix

/-- C3 witness: the theorem applied to a concrete three-message store with
limits 0, 2 and 5, discharging each hypothesis by computation. -/
theorem C3_witness :
    getMessageHistory 0 [⟨"A", "a", 1⟩, ⟨"B", "b", 2⟩, ⟨"C", "c", 3⟩] = [] ∧
    (getMessageHistory 2 [⟨"A", "a", 1⟩, ⟨"B", "b", 2⟩, ⟨"C", "c", 3⟩]).length =
      min (Int.toNat 2)
        ([⟨"A", "a", 1⟩, ⟨"B", "b", 2⟩, ⟨"C", "c", 3⟩] : List ChatMessage).length ∧
    getMessageHistory 5 [⟨"A", "a", 1⟩, ⟨"B", "b", 2⟩, ⟨"C", "c", 3⟩] =
      [⟨"A", "a", 1⟩, ⟨"B", "b", 2⟩, ⟨"C", "c", 3⟩] :=
  ⟨(C3_history 0 [⟨"A", "a", 1⟩, ⟨"B", "b", 2⟩, ⟨"C", "c", 3⟩]).1 (by decide),
   (C3_history 2 [⟨"A", "a", 1⟩, ⟨"B", "b", 2⟩, ⟨"C", "c", 3⟩]).2.1 (by decide),
   (C3_history 5 [⟨"A", "a", 1⟩, ⟨"B", "b", 2⟩, ⟨"C", "c", 3⟩]).2.2.1 (by decide)⟩

/-- C4: the claim that Send returns the assigned sequence number fails on the
code.  Both calls of a concrete two-send run return the same empty
`SendMessageResponse()` — so no strictly increasing number is returned — and
sending the same sender/content twice at the same clock value stores two
*equal* entries, so no never-reused identifier is assigned at append time. -/
theorem C4_counterexample :
    (sendMessage ⟨⟨"A", "hi", 0⟩⟩ 1 ⟨[], []⟩).2 =
      (sendMessage ⟨⟨"B", "yo", 0⟩⟩ 2
        (sendMessage ⟨⟨"A", "hi", 0⟩⟩ 1 ⟨[], []⟩).1).2 ∧
    (sends [(⟨⟨"A", "hi", 0⟩⟩, 1), (⟨⟨"A", "hi", 0⟩⟩, 1)]
        ⟨[], []⟩).messages_store = [⟨"A", "hi", 1⟩, ⟨"A", "hi", 1⟩] :=
  ⟨rfl, rfl⟩

/-- C4 (amended): `SendMessage` returns an empty acknowledgment carrying no
sequence number — any two sends, on any states, return equal responses — and
the stored entry consists of exactly the request's sender and content plus
the server clock value, with no sequence field assigned. -/
theorem C4_no_sequence_numbers (r1 r2 : SendMessageRequest) (n1 n2 : Int)
    (s1 s2 : ServerState) :
    (sendMessage r1 n1 s1).2 = (sendMessage r2 n2 s2).2 ∧
    (sendMessage r1 n1 s1).1.messages_store =
      s1.messages_store ++ [⟨r1.message.sender, r1.message.content, n1⟩] :=
  ⟨rfl, rfl⟩

/-- C5: the claim that Send rejects empty content before touching shared
state fails on the gRPC core: `SendMessage` of `server_simple.py` performs no
validation, so sending empty content from a state with one registered
subscriber appends the empty message to the store and to the subscriber's
queue, and returns the normal (error-free) empty response. -/
theorem C5_counterexample :
    (sendMessage ⟨⟨"A", "", 7⟩⟩ 7 ⟨[], [("c", [])]⟩).1 ≠
      (⟨[], [("c", [])]⟩ : ServerState) ∧
    (sendMessage ⟨⟨"A", "", 7⟩⟩ 7 ⟨[], [("c", [])]⟩).1.messages_store =
      [⟨"A", "", 7⟩] ∧
    (sendMessage ⟨⟨"A", "", 7⟩⟩ 7 ⟨[], [("c", [])]⟩).1.client_queues =
      [("c", [⟨"A", "", 7⟩])] := by
  refine ⟨by decide, rfl, rfl⟩

/-- C5 (amended): the empty-content validation lives in the HTTP transport
layer, not the core — the Flask `send_message` route returns a 400 error on
empty content without invoking the gRPC Send, leaving the server state
unchanged, while the gRPC `SendMessage` itself appends even an empty-content
message to the store. -/
theorem C5_validation_in_transport (sender : String) (now : Int)
    (st : ServerState) :
    flask_send sender "" now st =
      (st, ⟨"error", "Message content cannot be empty", 400⟩) ∧
    (sendMessage ⟨⟨sender, "", now⟩⟩ now st).1.messages_store =
      st.messages_store ++ [⟨sender, "", now⟩] := by
  exact ⟨by simp [flask_send], rfl⟩

/-- C6: fan-out order.  After any sequence of sends, every registered
subscriber's pending queue equals its previous contents followed by exactly
the appended messages in append order — the appended suffix is the same list
for every subscriber, so no reordering, no skipped and no duplicated message,
and any two subscribers registered across the same sends observe the
identical new-message sequence; the consumer loop (`drainQueue`) delivers a
queue's contents in exactly that order. -/
theorem C6_fanout_order (reqs : List (SendMessageRequest × Int))
    (st : ServerState) :
    (sends reqs st).client_queues =
      st.client_queues.map (fun p => (p.1, p.2 ++ sentMessages reqs)) ∧
    ∀ q : List ChatMessage, drainQueue q = q :=
  ⟨sends_client_queues reqs st, drainQueue_eq⟩

/-- C7: the claimed overflow policy fails on the code.  Client queues in
`server_simple.py` are plain unbounded deques: a subscriber that never drains
while 3 messages arrive ends up with 3 pending entries (exceeding the
claimed bound of 2) and is still registered — no session is closed. -/
theorem C7_counterexample :
    (sends [(⟨⟨"A", "m1", 0⟩⟩, 1), (⟨⟨"A", "m2", 0⟩⟩, 2), (⟨⟨"A", "m3", 0⟩⟩, 3)]
        ⟨[], [("c", [])]⟩).client_queues =
      [("c", [⟨"A", "m1", 1⟩, ⟨"A", "m2", 2⟩, ⟨"A", "m3", 3⟩])] ∧
    ∃ q, ("c", q) ∈
        (sends [(⟨⟨"A", "m1", 0⟩⟩, 1), (⟨⟨"A", "m2", 0⟩⟩, 2), (⟨⟨"A", "m3", 0⟩⟩, 3)]
          ⟨[], [("c", [])]⟩).client_queues ∧ 2 < q.length :=
  ⟨rfl, [⟨"A", "m1", 1⟩, ⟨"A", "m2", 2⟩, ⟨"A", "m3", 3⟩], by decide, by decide⟩

/-- C7 (amended): per-session pending queues are unbounded and there is no
overflow-disconnect policy — a registered subscriber that never drains stays
registered and its queue grows by exactly one entry per send, without limit. -/
theorem C7_queues_unbounded (reqs : List (SendMessageRequest × Int))
    (st : ServerState) (cid : String) (q : List ChatMessage)
    (h : (cid, q) ∈ st.client_queues) :
    (cid, q ++ sentMessages reqs) ∈ (sends reqs st).client_queues ∧
    (q ++ sentMessages reqs).length = q.length + reqs.length := by
  constructor
  · rw [sends_client_queues]
    exact List.mem_map_of_mem _ h
  · rw [List.length_append, sentMessages_length]

/-- C7 witness: the amended theorem applied to a concrete state with one
registered subscriber and three sends, discharging the membership
hypothesis by computation. -/
theorem C7_witness :
    ("c", ([] : List ChatMessage) ++
        sentMessages [(⟨⟨"A", "m1", 0⟩⟩, 1), (⟨⟨"A", "m2", 0⟩⟩, 2), (⟨⟨"A", "m3", 0⟩⟩, 3)]) ∈
      (sends [(⟨⟨"A", "m1", 0⟩⟩, 1), (⟨⟨"A", "m2", 0⟩⟩, 2), (⟨⟨"A", "m3", 0⟩⟩, 3)]
        ⟨[], [("c", [])]⟩).client_queues :=
  (C7_queues_unbounded
    [(⟨⟨"A", "m1", 0⟩⟩, 1), (⟨⟨"A", "m2", 0⟩⟩, 2), (⟨⟨"A", "m3", 0⟩⟩, 3)]
    ⟨[], [("c", [])]⟩ "c" [] (by decide)).1

/-- C8: deleting a non-existent identifier is non-fatal — when no stored
message's content matches, `DeleteMessage` returns `success=false` with the
not-found detail and leaves the store unchanged; and after any delete of an
identifier, a second delete of the same identifier always returns
`success=false` (idempotent failure). -/
theorem C8_delete_not_found (message_id : String) (s : List ChatMessage) :
    ((∀ m ∈ s, m.content ≠ message_id) →
      deleteMessage message_id s =
        (s, ⟨false, "No messages found with content \x27" ++ message_id ++ "\x27"⟩)) ∧
    (deleteMessage message_id (deleteMessage message_id s).1).2.success = false := by
  constructor
  · intro h
    exact deleteMessage_no_match message_id s h
  · have hall : ∀ m ∈ (deleteMessage message_id s).1, m.content ≠ message_id := by
      rw [deleteMessage_fst]
      intro m hm
      exact bne_iff_ne.mp (List.mem_filter.mp hm).2
    rw [deleteMessage_no_match message_id _ hall]

/-- C8 witness: the theorem applied to concrete stores — a store with no
match (discharging the no-match hypothesis by computation) and a second
delete after a successful one. -/
theorem C8_witness :
    deleteMessage "x" [⟨"A", "y", 1⟩] =
      ([⟨"A", "y", 1⟩], ⟨false, "No messages found with content \x27" ++ "x" ++ "\x27"⟩) ∧
    (deleteMessage "x" (deleteMessage "x" [⟨"A", "x", 1⟩]).1).2.success = false :=
  ⟨(C8_delete_not_found "x" [⟨"A", "y", 1⟩]).1 (by decide),
   (C8_delete_not_found "x" [⟨"A", "x", 1⟩]).2⟩

/-- C9: when the database client is uninitialized (`db = None`), every
producer-facing handler of `server.py` returns without touching any message
state — Send and Delete set `UNAVAILABLE` (Delete answering
`success=false, "Database not ready."`), GetMessageHistory sets `UNAVAILABLE`
with an empty response — and a Stream session never starts, yielding no
messages. -/
theorem C9_backend_unavailable (request : SendMessageRequest) (now : Int)
    (limit : Int) (message_id : String) :
    fsSendMessage none request now = (none, ⟨⟩, StatusCode.UNAVAILABLE) ∧
    fsGetMessageHistory none limit = ([], StatusCode.UNAVAILABLE) ∧
    fsDeleteMessage none message_id =
      (none, ⟨false, "Database not ready."⟩, StatusCode.UNAVAILABLE) ∧
    fsStreamStart none = none :=
  ⟨rfl, rfl, rfl, rfl⟩

/-- C10: frame property of Delete.  Every message whose content does not
match the identifier survives the call unchanged, the surviving store is a
sublist of the original (same relative order, same field values), and when
the call answers `success=false` the store is entirely unchanged; likewise
the Firestore variant's first-match removal keeps every non-matching
document in order. -/
theorem C10_delete_frame (message_id : String) (s : List ChatMessage) :
    (∀ m ∈ s, m.content ≠ message_id → m ∈ (deleteMessage message_id s).1) ∧
    (deleteMessage message_id s).1.Sublist s ∧
    ((deleteMessage message_id s).2.success = false →
      (deleteMessage message_id s).1 = s) ∧
    ∀ d : Database, (fsRemoveFirst message_id d).Sublist d ∧
      ∀ doc ∈ d, doc.content ≠ message_id → doc ∈ fsRemoveFirst message_id d := by
  refine ⟨?_, ?_, ?_, fun d => ⟨fsRemoveFirst_sublist message_id d,
    fsRemoveFirst_mem message_id d⟩⟩
  · rw [deleteMessage_fst]
    intro m hm hne
    exact List.mem_filter.mpr ⟨hm, bne_iff_ne.mpr hne⟩
  · rw [deleteMessage_fst]
    exact List.filter_sublist s
  · intro hf
    by_cases hc :
        0 < s.length - (s.filter fun m => m.content != message_id).length
    · exfalso
      simp [deleteMessage, hc] at hf
    · have hle := List.length_filter_le (fun m => m.content != message_id) s
      have hlen :
          (s.filter fun m => m.content != message_id).length = s.length := by
        omega
      rw [deleteMessage_fst]
      exact (List.filter_sublist s).eq_of_length hlen

/-- C10 witness: the theorem applied to concrete stores — a non-matching
message survives a delete that removes its neighbour, and a failed delete
leaves the store unchanged. -/
theorem C10_witness :
    ((⟨"B", "y", 2⟩ : ChatMessage) ∈
      (deleteMessage "x" [⟨"A", "x", 1⟩, ⟨"B", "y", 2⟩]).1) ∧
    (deleteMessage "z" [⟨"A", "x", 1⟩]).1 = [⟨"A", "x", 1⟩] :=
  ⟨(C10_delete_frame "x" [⟨"A", "x", 1⟩, ⟨"B", "y", 2⟩]).1
     ⟨"B", "y", 2⟩ (by decide) (by decide),
   (C10_delete_frame "z" [⟨"A", "x", 1⟩]).2.2.1 (by decide)⟩
